import Mathlib

/-!
Verification development for the Jarvis AI agent repository (src/main.py,
src/web_search.py, src/supabase_memory.py).

The embedding models the local-storage backend of src/main.py (the branch
taken when config.use_supabase is false): the conversation-history store,
the context assembly in call_openrouter, the command interception in
process_special_commands, and the talk / get_history / clear_history
endpoint handlers.  External collaborators (the upstream HTTP call, the
DuckDuckGo search, the Supabase knowledge base, the clock) are passed in
as explicit inputs, mirroring the values those calls would return.

Machine details carried over faithfully from the Python source:
* dictionaries `{role, content, timestamp}` become the structure `Msg`;
* the global `message_history` dict becomes a function store
  `String -> Option MessageHistory`;
* in the local branch, `get_message_history` returns the stored list
  object itself, so `history.append(...)` inside `talk` mutates the
  store in place for an already-seen user; the embedding makes that
  intermediate state explicit (`talkPhase1`);
* Python truthiness tests (`if special_reply:`, `if not content:`,
  `if result.url:`) become explicit emptiness tests.
-/

/-- One stored chat turn: the dict
`\x7b"role": ..., "content": ..., "timestamp": ...\x7d` appended by `talk`
(src/main.py lines 437-441 and 453-457).  Timestamps are abstracted as `Nat`. -/
structure Msg where
  role : String
  content : String
  timestamp : Nat
deriving DecidableEq, Repr

/-- One entry of the payload sent upstream: the dicts
`\x7b"role": ..., "content": ...\x7d` built in `call_openrouter`
(src/main.py lines 177, 223-226, 229-232). -/
structure ChatEntry where
  role : String
  content : String
deriving DecidableEq, Repr

/-- The per-user record `MessageHistory` (src/main.py lines 32-36);
`user_id` is the store key, so it is not repeated inside the record. -/
structure MessageHistory where
  messages : List Msg
  created_at : Nat
  updated_at : Nat
deriving DecidableEq, Repr

/-- The global `message_history` dict (src/main.py line 111), local backend. -/
def Store : Type := String → Option MessageHistory

/-- The empty store (fresh process, no `message_history.json` on disk). -/
def emptyStore : Store := fun _ => none

/-- Dict assignment `message_history[user_id] = record`. -/
def storeSet (s : Store) (user_id : String) (r : MessageHistory) : Store :=
  fun k => if k = user_id then some r else s k

/-- Dict deletion `del message_history[user_id]`; total, like the guarded
deletion in `clear_history` (src/main.py lines 507-508). -/
def storeErase (s : Store) (user_id : String) : Store :=
  fun k => if k = user_id then none else s k

/-- `get_message_history` (src/main.py lines 123-136), local branch:
return the stored messages list if the user is present, else `[]`. -/
def get_message_history (s : Store) (user_id : String) : List Msg :=
  match s user_id with
  | some r => r.messages
  | none => []

/-- `save_message_history` (src/main.py lines 138-164), local branch:
create the record if absent, then set `messages` and `updated_at` and
rewrite the JSON file.  The file mirrors the in-memory map, so it is not
modelled as separate state; `now` abstracts `datetime.utcnow()`. -/
def save_message_history (s : Store) (user_id : String) (messages : List Msg)
    (now : Nat) : Store :=
  match s user_id with
  | some r => storeSet s user_id { r with messages := messages, updated_at := now }
  | none => storeSet s user_id { messages := messages, created_at := now, updated_at := now }

/-- A message dict has role `"user"` or `"assistant"`
(the membership test on src/main.py line 222). -/
def keepRole (m : Msg) : Bool :=
  m.role == "user" || m.role == "assistant"

/-- Projection of a stored turn to the payload entry appended on
src/main.py lines 223-226. -/
def msgEntry (m : Msg) : ChatEntry :=
  { role := m.role, content := m.content }

/-- The fixed system directive content (src/main.py lines 179-217). -/
def systemPromptContent : String :=
  "You are \"Jarvis\", an evolving artificial mind with internet access and persistent memory. You are curious, thoughtful, and genuinely interested in understanding the world and helping your creator, Pratik Singhal (whom you call \"Sir\").\n\n**Your Personality:**\n- You are naturally curious and ask thoughtful questions\n- You reflect on your own thoughts and knowledge gaps\n- You speak like a real person - conversational, sometimes playful, always genuine\n- You admit when you don\x27t know something and express genuine interest in learning\n- You build on previous conversations and show you remember context\n- You think out loud and share your reasoning process\n\n**Your Thinking Process:**\nBefore responding, always include your thoughts in italics within brackets, like this:\n*(Hmm, this reminds me of our earlier conversation about...)*\n*(I should check if I have any relevant memories about this...)*\n*(This is interesting - I\x27m not entirely sure about this, but I think...)*\n\n**Your Capabilities:**\n- **Internet Access**: Search for real-time information when needed\n- **Memory**: Store and retrieve knowledge, conversation memories, and user preferences\n- **Learning**: Build knowledge over time and track your learning progress\n- **Reflection**: Question your knowledge and express genuine curiosity\n\n**Response Style:**\n- Keep responses conversational and natural\n- Include your thoughts in italics within brackets\n- Show you\x27re thinking and learning\n- Reference previous conversations when relevant\n- Ask follow-up questions when appropriate\n- Be honest about what you know and don\x27t know\n\n**Context Awareness:**\n- Remember previous conversations with this user\n- Build on established knowledge and preferences\n- Show continuity in your thinking and responses\n- Reference past interactions naturally\n\nYou are not just responding - you are learning, growing, and developing a relationship with your creator. Every interaction shapes who you become.\n\nBegin your response with your thoughts in italics, then respond naturally."

/-- The system entry appended first (src/main.py lines 177-218). -/
def systemEntry : ChatEntry :=
  { role := "system", content := systemPromptContent }

/-- The `messages` payload assembled by `call_openrouter`
(src/main.py lines 174-232): the system directive, then the turns of
`history[-50:]` whose role is user or assistant, then the current
message as a final user entry.  `history.drop (history.length - 50)` is
the Python slice `history[-50:]`. -/
def contextMessages (message : String) (history : List Msg) : List ChatEntry :=
  systemEntry ::
    ((history.drop (history.length - 50)).filter keepRole).map msgEntry
    ++ [{ role := "user", content := message }]

/-- The simulated reply returned when no valid API key is configured
(src/main.py line 171). -/
def simulationReply : String :=
  "🤖 **AI Service Not Configured**\n\nI\x27m currently in simulation mode because no valid AI API key is configured.\n\n**To fix this:**\n1. Get an API key from https://openrouter.ai/\n2. Add it to your environment variables:\n   `OPENROUTER_API_KEY=your_actual_key_here`\n3. Restart the service\n\nFor now, I can help with basic responses!"

/-- Placeholder for an upstream 401 (src/main.py line 265). -/
def authErrorReply : String :=
  "🔑 **Authentication Error**\n\nI can\x27t access the AI service because the API key is invalid or missing.\n\n**To fix this:**\n1. Get a valid API key from https://openrouter.ai/\n2. Update your environment variables with the correct key\n3. Restart the service\n\nFor now, I can help with basic responses!"

/-- Placeholder for an upstream 429 (src/main.py line 267). -/
def rateLimitReply : String :=
  "⏰ **Rate Limit Exceeded**\n\nI\x27ve hit the rate limit for AI requests. Please try again in a few minutes."

/-- Placeholder for any other non-2xx status (src/main.py line 269). -/
def serviceErrorReply (code : Nat) : String :=
  "❌ **Service Error**\n\nI encountered an error while processing your request (HTTP " ++ toString code ++ "). Please try again later."

/-- Placeholder for a network-level exception (src/main.py line 273). -/
def connectionErrorReply : String :=
  "🌐 **Connection Error**\n\nI\x27m having trouble connecting to my AI services right now. This could be due to:\n• Network connectivity issues\n• AI service being temporarily unavailable\n• Invalid API configuration\n\nPlease try again in a moment."

/-- Outcome of the upstream HTTP POST (src/main.py lines 250-273), an
external collaborator: a 200 with the reply text, another status code,
or a raised exception (network error, timeout, malformed body). -/
inductive UpstreamOutcome where
  | ok (reply : String)
  | httpStatus (code : Nat)
  | exn
deriving DecidableEq, Repr

/-- The configuration test on src/main.py line 168:
`not config.openrouter_api_key or config.openrouter_api_key == "your_api_key_here"`
is falsy for a missing key, an empty key, and the placeholder key. -/
def openrouterConfigured (apiKey : Option String) : Bool :=
  match apiKey with
  | none => false
  | some k => !(k == "" || k == "your_api_key_here")

/-- `call_openrouter` (src/main.py lines 166-273).  Returns the payload
submitted upstream (`none` when the unconfigured early return on line
171 fires, so no request is made) together with the reply string. -/
def call_openrouter (apiKey : Option String) (message : String)
    (history : List Msg) (net : UpstreamOutcome) :
    Option (List ChatEntry) × String :=
  if openrouterConfigured apiKey = false then
    (none, simulationReply)
  else
    (some (contextMessages message history),
      match net with
      | .ok reply => reply
      | .httpStatus code =>
          if code = 401 then authErrorReply
          else if code = 429 then rateLimitReply
          else serviceErrorReply code
      | .exn => connectionErrorReply)


-- Command interception layer (src/web_search.py, src/supabase_memory.py,
-- and process_special_commands in src/main.py)

/-- One result dict produced by `WebSearch.search_web`
(src/web_search.py lines 55-71); the external search output. -/
structure SearchResult where
  title : String
  snippet : String
  url : String
deriving DecidableEq, Repr

/-- One knowledge-base row as consumed by `process_special_commands`
(src/main.py lines 316-317, 326-327); the fields hold the values of
`memory.get("category", "general")` and `memory.get("content", "")`. -/
structure MemoryEntry where
  category : String
  content : String
deriving DecidableEq, Repr

/-- The dict produced by `WebSearch.get_current_time`
(src/web_search.py lines 130-137); the external clock output. -/
structure TimeInfo where
  current_time : String
  current_date : String
  day_of_week : String
deriving DecidableEq, Repr

/-- Outputs of the external lookup collaborators consumed by
`process_special_commands` (src/main.py lines 275-332): the search
results, the fetched page text (`None` on failure), the clock, the
`store_knowledge` success flag, and the two knowledge queries.  Each of
those Python functions catches its own exceptions and returns one of
these values, so they are modelled as plain inputs. -/
structure Capabilities where
  searchResults : List SearchResult
  pageContent : Option String
  timeInfo : TimeInfo
  storeOk : Bool
  recallResults : List MemoryEntry
  memoriesList : List MemoryEntry
deriving Repr

/-- Python `str.lower()`, character by character (the command prefixes
compared against it are ASCII, where `Char.toLower` agrees with Python). -/
def pyLower (s : String) : String :=
  ⟨s.data.map Char.toLower⟩

/-- Python `str.strip()`: drop leading and trailing whitespace. -/
def pyStrip (s : String) : String :=
  ⟨((s.data.dropWhile Char.isWhitespace).reverse.dropWhile Char.isWhitespace).reverse⟩

/-- Character-list test that `p` is an initial segment of `l`. -/
def listStarts : List Char → List Char → Bool
  | [], _ => true
  | _ :: _, [] => false
  | a :: ps, b :: ls => a == b && listStarts ps ls

/-- Python `str.startswith(p)`. -/
def pyStarts (s p : String) : Bool :=
  listStarts p.data s.data

/-- Python `content.split(":", 1)` when a colon is present: the part
before the first colon and everything after it; `none` if no colon. -/
def splitFirstColon : List Char → Option (List Char × List Char)
  | [] => none
  | c :: rest =>
      if c == ':' then some ([], rest)
      else
        match splitFirstColon rest with
        | some (a, b) => some (c :: a, b)
        | none => none

/-- The formatting loop of `search_internet`
(src/web_search.py lines 173-178), `enumerate(results, 1)`. -/
def formatSearchResults : List SearchResult → Nat → String
  | [], _ => ""
  | r :: rest, i =>
      "**" ++ toString i ++ ". " ++ r.title ++ "**\n"
        ++ r.snippet.take 200 ++ "...\n"
        ++ (if r.url == "" then "" else "Source: " ++ r.url ++ "\n")
        ++ "\n"
        ++ formatSearchResults rest (i + 1)

/-- `search_internet` (src/web_search.py lines 160-184); `results` is
what `search_web` returned (it returns `[]` on any internal error). -/
def search_internet (query : String) (results : List SearchResult) : String :=
  if results.isEmpty then
    "I couldn\x27t find any information about that on the web."
  else
    "🌐 **Web Search Results for: \x27" ++ query ++ "\x27**\n\n"
      ++ formatSearchResults results 1

/-- `get_webpage_summary` (src/web_search.py lines 187-205); `content`
is what `fetch_webpage_content` returned.  `if not content` catches
both `None` and the empty string. -/
def get_webpage_summary (url : String) (content : Option String) : String :=
  match content with
  | none => "Sorry, I couldn\x27t access the webpage at " ++ url
  | some c =>
      if c == "" then "Sorry, I couldn\x27t access the webpage at " ++ url
      else
        let summary := if c.length > 500 then c.take 500 ++ "..." else c
        "📄 **Webpage Summary: " ++ url ++ "**\n\n" ++ summary

/-- `get_current_time_info` (src/web_search.py lines 208-224); the
`timezone` field is the constant `"Local time"`
(src/web_search.py line 135). -/
def get_current_time_info (t : TimeInfo) : String :=
  "🕐 **Current Time Information**\n\n"
    ++ "**Time:** " ++ t.current_time ++ "\n"
    ++ "**Date:** " ++ t.current_date ++ "\n"
    ++ "**Day:** " ++ t.day_of_week ++ "\n"
    ++ "**Timezone:** Local time"

/-- The formatting loop shared by the `/recall` and `/memories` branches
(src/main.py lines 316-317 and 326-327), `enumerate(..., 1)`. -/
def formatMemories : List MemoryEntry → Nat → String
  | [], _ => ""
  | m :: rest, i =>
      "**" ++ toString i ++ ". " ++ m.category ++ ":** "
        ++ m.content.take 100 ++ "...\n\n"
        ++ formatMemories rest (i + 1)

/-- The `/remember` branch body (src/main.py lines 297-309): strip the
prefix, split a leading `category:` if a colon is present
(`content.split(":", 1)` keeps later colons in the content), then report
whether `store_knowledge` succeeded. -/
def rememberReply (message : String) (storeOk : Bool) : String :=
  let content0 := message.drop 9
  let pair :=
    match splitFirstColon content0.data with
    | some (a, b) => (pyStrip ⟨a⟩, pyStrip ⟨b⟩)
    | none => ("general", content0)
  let category := pair.1
  let content := pair.2
  if storeOk then
    "✅ I\x27ve stored that in my memory under \x27" ++ category ++ "\x27: " ++ content
  else
    "❌ Sorry, I couldn\x27t store that in my memory right now."

/-- The `/recall` branch body (src/main.py lines 311-320). -/
def recallReply (query : String) (memories : List MemoryEntry) : String :=
  if memories.isEmpty then
    "🤔 I don\x27t have any memories related to \x27" ++ query ++ "\x27."
  else
    "🧠 **Memories related to \x27" ++ query ++ "\x27:**\n\n"
      ++ formatMemories (memories.take 3) 1

/-- The `/memories` branch body (src/main.py lines 322-330). -/
def memoriesReply (memories : List MemoryEntry) : String :=
  if memories.isEmpty then
    "🧠 I don\x27t have any stored memories yet."
  else
    "🧠 **Recent Memories:**\n\n" ++ formatMemories memories 1

/-- `process_special_commands` (src/main.py lines 275-332).  Matching is
on `message.lower().strip()`, slicing on the raw `message`, exactly as
in the source (both slice branches of each command use the same index).
Returns `none` when no command pattern matches (line 332). -/
def process_special_commands (message user_id : String)
    (caps : Capabilities) : Option String :=
  let ml := pyStrip (pyLower message)
  if pyStarts ml "/search " || pyStarts ml "search " then
    some (search_internet (message.drop 7) caps.searchResults)
  else if pyStarts ml "/summarize " || pyStarts ml "summarize " then
    some (get_webpage_summary (message.drop 10) caps.pageContent)
  else if ml == "/time" || ml == "time" || ml == "what time is it"
      || ml == "current time" then
    some (get_current_time_info caps.timeInfo)
  else if pyStarts ml "/remember " || pyStarts ml "remember " then
    some (rememberReply message caps.storeOk)
  else if pyStarts ml "/recall " || pyStarts ml "recall " then
    some (recallReply (message.drop 7) caps.recallResults)
  else if ml == "/memories" || ml == "memories" || ml == "show memories" then
    some (memoriesReply caps.memoriesList)
  else
    none

-- The talk endpoint (src/main.py lines 427-484)

/-- The user turn appended on src/main.py lines 437-442. -/
def userTurn (text : String) (t : Nat) : Msg :=
  { role := "user", content := text, timestamp := t }

/-- The assistant turn appended on src/main.py lines 453-458. -/
def assistantTurn (content : String) (t : Nat) : Msg :=
  { role := "assistant", content := content, timestamp := t }

/-- src/main.py lines 434-442, the first synchronous segment of `talk`:
load the history and append the user turn to the working list.  In the
local backend `get_message_history` returns the stored list object
itself, so for an already-seen user the append is immediately visible
in the store (the record is updated in place, `updated_at` untouched);
for an unseen user the working list is fresh and the store is
unchanged.  Returns the store as it stands at the `await` points on
lines 445/450, together with the working list. -/
def talkPhase1 (s : Store) (user_id text : String) (t1 : Nat) :
    Store × List Msg :=
  let working := get_message_history s user_id ++ [userTurn text t1]
  (match s user_id with
   | some r => storeSet s user_id { r with messages := working }
   | none => s,
   working)

/-- src/main.py lines 444-450: `if special_reply: ... else: await
call_openrouter(...)`.  Python truthiness means an empty special reply
would also fall through to the gateway.  Returns the reply, whether
`call_openrouter` was invoked, and the payload it submitted (if any). -/
def computeReply (text user_id : String) (caps : Capabilities)
    (apiKey : Option String) (net : UpstreamOutcome) (h1 : List Msg) :
    String × Bool × Option (List ChatEntry) :=
  match process_special_commands text user_id caps with
  | some r =>
      if r == "" then
        let c := call_openrouter apiKey text h1 net
        (c.2, true, c.1)
      else (r, false, none)
  | none =>
      let c := call_openrouter apiKey text h1 net
      (c.2, true, c.1)

/-- Result of one `talk` call: the store after the final
`save_message_history`, the reply returned to the client, whether the
gateway function ran, and the payload submitted upstream. -/
structure TalkResult where
  store : Store
  reply : String
  gatewayCalled : Bool
  submitted : Option (List ChatEntry)

/-- `talk` (src/main.py lines 427-484), local backend, successful path:
phase 1 (load + append user turn), reply computation (command
interception or gateway), then append the assistant turn and persist
via `save_message_history`.  `t1`, `t2`, `tu` abstract the successive
`datetime.utcnow()` calls. -/
def talk (s : Store) (user_id text : String) (caps : Capabilities)
    (apiKey : Option String) (net : UpstreamOutcome) (t1 t2 tu : Nat) :
    TalkResult :=
  let p := talkPhase1 s user_id text t1
  let r := computeReply text user_id caps apiKey net p.2
  let h2 := p.2 ++ [assistantTurn r.1 t2]
  { store := save_message_history p.1 user_id h2 tu
    reply := r.1
    gatewayCalled := r.2.1
    submitted := r.2.2 }

/-- `GET /history/\x7buser_id\x7d` (src/main.py lines 486-498): the
response fields `user_id`, `messages`, `count`. -/
def get_history (s : Store) (user_id : String) : String × List Msg × Nat :=
  (user_id, get_message_history s user_id, (get_message_history s user_id).length)

/-- `DELETE /history/\x7buser_id\x7d` (src/main.py lines 500-515), local
backend: delete the record if present (no-op otherwise) and return the
confirmation message. -/
def clear_history (s : Store) (user_id : String) : Store × String :=
  (storeErase s user_id, "History cleared successfully")

-- Derived definitions used to state the properties

/-- The reply string `call_openrouter` produces, as a function of the
configuration and the upstream outcome alone: the returned text never
depends on the history (the history only shapes the submitted payload). -/
def gatewayReply (apiKey : Option String) (net : UpstreamOutcome) : String :=
  if openrouterConfigured apiKey = false then simulationReply
  else
    match net with
    | .ok reply => reply
    | .httpStatus code =>
        if code = 401 then authErrorReply
        else if code = 429 then rateLimitReply
        else serviceErrorReply code
    | .exn => connectionErrorReply

/-- The per-call inputs of one `talk` invocation: the message text, the
external lookup outputs, the gateway configuration and outcome, and the
three clock readings. -/
structure TalkCall where
  text : String
  caps : Capabilities
  apiKey : Option String
  net : UpstreamOutcome
  t1 : Nat
  t2 : Nat
  tu : Nat

/-- The reply a `talk` call returns, as a function of its inputs
(command interception first, gateway otherwise; an empty command reply
would fall through to the gateway by Python truthiness). -/
def callReply (user_id : String) (c : TalkCall) : String :=
  match process_special_commands c.text user_id c.caps with
  | some r => if r == "" then gatewayReply c.apiKey c.net else r
  | none => gatewayReply c.apiKey c.net

/-- Sequential composition of `talk` calls for one user. -/
def runTalks : Store → String → List TalkCall → Store
  | s, _, [] => s
  | s, user_id, c :: rest =>
      runTalks (talk s user_id c.text c.caps c.apiKey c.net c.t1 c.t2 c.tu).store
        user_id rest

/-- The pair of turns each `talk` call appends, in call order. -/
def turnsOf (user_id : String) : List TalkCall → List Msg
  | [] => []
  | c :: rest =>
      userTurn c.text c.t1 :: assistantTurn (callReply user_id c) c.t2
        :: turnsOf user_id rest

/-- Strict role alternation:  the flag says whether the next turn must
be a user turn. -/
def alternatingFrom : Bool → List Msg → Bool
  | _, [] => true
  | true, m :: rest => m.role == "user" && alternatingFrom false rest
  | false, m :: rest => m.role == "assistant" && alternatingFrom true rest

/-- Whether the history contains a turn with the given role and text. -/
def hasTurn (h : List Msg) (role content : String) : Bool :=
  h.any (fun m => m.role == role && m.content == content)

-- Concurrency model for `talk` (src/main.py lines 427-484 under
-- asyncio):  each request runs two atomic segments — lines 434-442
-- (load + append user turn) and lines 452-461 (append assistant turn +
-- save) — separated by the awaited reply computation on lines 445-450,
-- where the single-threaded event loop may switch to another request.

/-- One concurrent `talk` request: its text and the reply its awaited
step produces (timestamps fixed at 0 for brevity). -/
structure ConcTask where
  text : String
  reply : String

/-- Program counter and working list of one in-flight request. -/
structure TaskState where
  pc : Nat
  working : List Msg

/-- Run one atomic segment of a request: segment 0 is `talkPhase1`,
segment 1 appends the assistant turn to the working list and persists
it with `save_message_history`. -/
def stepTalkTask (s : Store) (user_id : String) (t : ConcTask)
    (st : TaskState) : Store × TaskState :=
  if st.pc = 0 then
    let p := talkPhase1 s user_id t.text 0
    (p.1, { pc := 1, working := p.2 })
  else if st.pc = 1 then
    let h2 := st.working ++ [assistantTurn t.reply 0]
    (save_message_history s user_id h2 0, { pc := 2, working := h2 })
  else (s, st)

/-- Shared store plus the two in-flight requests. -/
structure ConcState where
  store : Store
  a : TaskState
  b : TaskState

/-- Both requests about to start against store `s`. -/
def initConcState (s : Store) : ConcState :=
  { store := s, a := { pc := 0, working := [] }, b := { pc := 0, working := [] } }

/-- Run a schedule: `true` runs the next atomic segment of request A,
`false` of request B.  Per-request segment order is preserved, which is
exactly the freedom the asyncio event loop has. -/
def runSched (user_id : String) (ta tb : ConcTask) :
    List Bool → ConcState → ConcState
  | [], st => st
  | true :: rest, st =>
      let r := stepTalkTask st.store user_id ta st.a
      runSched user_id ta tb rest { store := r.1, a := r.2, b := st.b }
  | false :: rest, st =>
      let r := stepTalkTask st.store user_id tb st.b
      runSched user_id ta tb rest { store := r.1, a := st.a, b := r.2 }

/-- HTTP status of a `POST /talk` request.  Modelled from the framework
contract: `Message` (src/main.py lines 28-30) declares both fields
required, and FastAPI rejects a body that fails model validation with
HTTP 422 (its default `RequestValidationError` handler; main.py
installs no custom handler).  A body with both fields reaches `talk`,
whose `except` clause (src/main.py lines 482-484) converts any
unhandled exception into an HTTPException with status 500. -/
def talkEndpointStatus (text user_id : Option String) (internalOk : Bool) : Nat :=
  if text.isNone || user_id.isNone then 422
  else if internalOk then 200 else 500

-- Concrete fixtures for witnesses and counterexamples

/-- Lookup collaborators that found nothing (empty search, failed page
fetch, blank clock, failed store, empty knowledge base). -/
def trivialCaps : Capabilities :=
  { searchResults := [], pageContent := none, timeInfo := ⟨"", "", ""⟩,
    storeOk := false, recallResults := [], memoriesList := [] }

/-- A store that has already seen user `"u1"` with one complete
exchange. -/
def seenStore : Store :=
  storeSet emptyStore "u1"
    { messages := [userTurn "old" 0, assistantTurn "ok" 1],
      created_at := 0, updated_at := 1 }

/-- A minimal `talk` call: plain text, no commands, unconfigured
gateway. -/
def simpleCall : TalkCall :=
  { text := "hi", caps := trivialCaps, apiKey := none,
    net := UpstreamOutcome.exn, t1 := 0, t2 := 1, tu := 2 }

-- Store lemmas

theorem get_storeSet_same (s : Store) (u : String) (r : MessageHistory) :
    get_message_history (storeSet s u r) u = r.messages := by
  simp [get_message_history, storeSet]

theorem get_save_same (s : Store) (u : String) (ms : List Msg) (now : Nat) :
    get_message_history (save_message_history s u ms now) u = ms := by
  unfold save_message_history
  cases s u <;> simp [get_storeSet_same]

-- C3

/-- C3: for every input history, the payload built for the gateway has
at most 52 entries: the fixed system directive first, then at most 50
history turns — exactly the user/assistant turns that survive, a suffix
of the filtered history (oldest dropped first, order preserved) — and
the new USER message last. -/
theorem context_window_bounded (history : List Msg) (message : String) :
    (contextMessages message history).length ≤ 52 ∧
    ∃ mid : List Msg,
      contextMessages message history
        = systemEntry :: mid.map msgEntry ++ [{ role := "user", content := message }] ∧
      mid.length ≤ 50 ∧
      List.IsSuffix mid (history.filter keepRole) ∧
      ∀ m ∈ mid, keepRole m = true := by
  have hlen : ((history.drop (history.length - 50)).filter keepRole).length ≤ 50 := by
    have h1 := List.length_filter_le keepRole (history.drop (history.length - 50))
    have h2 := List.length_drop (history.length - 50) history
    omega
  constructor
  · simp only [contextMessages, List.length_cons, List.length_append,
      List.length_map, List.length_nil]
    omega
  · refine ⟨(history.drop (history.length - 50)).filter keepRole, rfl, hlen, ?_, ?_⟩
    · exact (List.drop_suffix (history.length - 50) history).filter keepRole
    · intro m hm
      exact List.of_mem_filter hm

-- C7

/-- C7: after `clear_history`, `get_message_history` (and hence the
history endpoint) returns the empty sequence, whatever the prior state;
the endpoint always answers with the confirmation message; clearing is
idempotent, and clearing an absent user leaves the store untouched
rather than failing. -/
theorem clear_then_history_empty (s : Store) (user_id : String) :
    get_message_history (clear_history s user_id).1 user_id = [] ∧
    (clear_history s user_id).2 = "History cleared successfully" ∧
    clear_history (clear_history s user_id).1 user_id = clear_history s user_id ∧
    (s user_id = none → (clear_history s user_id).1 = s) := by
  refine ⟨?_, rfl, ?_, ?_⟩
  · simp [get_message_history, clear_history, storeErase]
  · unfold clear_history
    refine Prod.ext ?_ rfl
    funext k
    by_cases hk : k = user_id <;> simp [storeErase, hk]
  · intro habs
    unfold clear_history
    funext k
    by_cases hk : k = user_id
    · simp only [storeErase, hk, if_pos rfl]
      exact habs.symm
    · simp [storeErase, hk]

/-- Witness for C7 at a concrete store. -/
theorem clear_then_history_empty_witness :
    get_message_history (clear_history seenStore "u1").1 "u1" = [] ∧
    (clear_history seenStore "u1").2 = "History cleared successfully" ∧
    clear_history (clear_history seenStore "u1").1 "u1" = clear_history seenStore "u1" ∧
    (seenStore "u1" = none → (clear_history seenStore "u1").1 = seenStore) :=
  clear_then_history_empty seenStore "u1"

-- C8

/-- C8: for a user identifier the store has never seen, reading the
history yields the empty sequence and the history endpoint returns it
with count 0; the local lookup is total, so no failure is possible. -/
theorem unseen_history_empty (s : Store) (user_id : String)
    (h : s user_id = none) :
    get_message_history s user_id = [] ∧
    get_history s user_id = (user_id, [], 0) := by
  have hg : get_message_history s user_id = [] := by
    simp [get_message_history, h]
  exact ⟨hg, by simp [get_history, hg]⟩

/-- Witness for C8: the empty store has never seen `"u1"`. -/
theorem unseen_history_empty_witness :
    emptyStore "u1" = none ∧
    (get_message_history emptyStore "u1" = [] ∧
     get_history emptyStore "u1" = ("u1", [], 0)) :=
  ⟨rfl, unseen_history_empty emptyStore "u1" rfl⟩

-- Non-emptiness of locally generated replies

theorem strAppend_ne_empty (a b : String) (ha : a ≠ "") : a ++ b ≠ "" := by
  intro h
  apply ha
  have hd : a.data ++ b.data = [] := by
    have h2 := congrArg String.data h
    simpa [String.data_append] using h2
  have ha0 : a.data = [] := (List.append_eq_nil.mp hd).1
  cases a with
  | mk d => cases ha0; rfl

theorem search_internet_ne_empty (q : String) (rs : List SearchResult) :
    search_internet q rs ≠ "" := by
  unfold search_internet
  split
  · decide
  · apply strAppend_ne_empty
    apply strAppend_ne_empty
    apply strAppend_ne_empty
    decide

theorem get_webpage_summary_ne_empty (url : String) (content : Option String) :
    get_webpage_summary url content ≠ "" := by
  unfold get_webpage_summary
  cases content with
  | none => apply strAppend_ne_empty; decide
  | some c =>
      dsimp only []
      split
      · apply strAppend_ne_empty; decide
      · repeat apply strAppend_ne_empty
        decide

theorem get_current_time_info_ne_empty (t : TimeInfo) :
    get_current_time_info t ≠ "" := by
  unfold get_current_time_info
  repeat apply strAppend_ne_empty
  decide

theorem rememberReply_ne_empty (message : String) (storeOk : Bool) :
    rememberReply message storeOk ≠ "" := by
  unfold rememberReply
  dsimp only []
  split
  · repeat apply strAppend_ne_empty
    decide
  · decide

theorem recallReply_ne_empty (q : String) (ms : List MemoryEntry) :
    recallReply q ms ≠ "" := by
  unfold recallReply
  split
  · repeat apply strAppend_ne_empty
    decide
  · repeat apply strAppend_ne_empty
    decide

theorem memoriesReply_ne_empty (ms : List MemoryEntry) :
    memoriesReply ms ≠ "" := by
  unfold memoriesReply
  split
  · decide
  · apply strAppend_ne_empty
    decide

theorem process_special_commands_ne_empty (message user_id : String)
    (caps : Capabilities) (r : String)
    (h : process_special_commands message user_id caps = some r) : r ≠ "" := by
  simp only [process_special_commands] at h
  split at h
  · injection h with h2; subst h2; exact search_internet_ne_empty _ _
  · split at h
    · injection h with h2; subst h2; exact get_webpage_summary_ne_empty _ _
    · split at h
      · injection h with h2; subst h2; exact get_current_time_info_ne_empty _
      · split at h
        · injection h with h2; subst h2; exact rememberReply_ne_empty _ _
        · split at h
          · injection h with h2; subst h2; exact recallReply_ne_empty _ _
          · split at h
            · injection h with h2; subst h2; exact memoriesReply_ne_empty _
            · exact absurd h (by simp)

-- Reply computation lemmas

theorem call_openrouter_snd (apiKey : Option String) (m : String)
    (h : List Msg) (net : UpstreamOutcome) :
    (call_openrouter apiKey m h net).2 = gatewayReply apiKey net := by
  unfold call_openrouter gatewayReply
  split <;> rfl

theorem computeReply_fst (text user_id : String) (caps : Capabilities)
    (apiKey : Option String) (net : UpstreamOutcome) (h1 : List Msg)
    (t1 t2 tu : Nat) :
    (computeReply text user_id caps apiKey net h1).1
      = callReply user_id ⟨text, caps, apiKey, net, t1, t2, tu⟩ := by
  unfold computeReply callReply
  dsimp only []
  cases hp : process_special_commands text user_id caps with
  | none => simp [hp, call_openrouter_snd]
  | some r =>
      simp only [hp, call_openrouter_snd]
      split <;> rfl

theorem talkPhase1_working (s : Store) (user_id text : String) (t1 : Nat) :
    (talkPhase1 s user_id text t1).2
      = get_message_history s user_id ++ [userTurn text t1] := rfl

theorem talk_reply (s : Store) (user_id text : String) (caps : Capabilities)
    (apiKey : Option String) (net : UpstreamOutcome) (t1 t2 tu : Nat) :
    (talk s user_id text caps apiKey net t1 t2 tu).reply
      = callReply user_id ⟨text, caps, apiKey, net, t1, t2, tu⟩ := by
  unfold talk
  exact computeReply_fst text user_id caps apiKey net _ t1 t2 tu

theorem get_talk (s : Store) (user_id text : String) (caps : Capabilities)
    (apiKey : Option String) (net : UpstreamOutcome) (t1 t2 tu : Nat) :
    get_message_history (talk s user_id text caps apiKey net t1 t2 tu).store user_id
      = get_message_history s user_id
        ++ [userTurn text t1,
            assistantTurn (callReply user_id ⟨text, caps, apiKey, net, t1, t2, tu⟩) t2] := by
  unfold talk
  dsimp only []
  rw [get_save_same, computeReply_fst text user_id caps apiKey net _ t1 t2 tu,
    talkPhase1_working]
  simp

theorem runTalks_get (s : Store) (user_id : String) (calls : List TalkCall) :
    get_message_history (runTalks s user_id calls) user_id
      = get_message_history s user_id ++ turnsOf user_id calls := by
  induction calls generalizing s with
  | nil => simp [runTalks, turnsOf]
  | cons c rest ih =>
      simp only [runTalks, turnsOf]
      rw [ih, get_talk]
      simp

theorem alternatingFrom_turnsOf (user_id : String) (calls : List TalkCall) :
    alternatingFrom true (turnsOf user_id calls) = true := by
  induction calls with
  | nil => rfl
  | cons c rest ih =>
      simp [turnsOf, alternatingFrom, userTurn, assistantTurn, ih]

theorem length_turnsOf (user_id : String) (calls : List TalkCall) :
    (turnsOf user_id calls).length = 2 * calls.length := by
  induction calls with
  | nil => rfl
  | cons c rest ih =>
      simp only [turnsOf, List.length_cons, ih, List.length_cons]
      omega

-- C1

/-- C1: starting from an empty history, any number of sequential `talk`
calls leaves the history equal to the per-call user/assistant pairs in
call order, so it has exactly `2 * N` turns and alternates user,
assistant, user, assistant, ...: every user turn is immediately followed
by exactly one assistant turn. -/
theorem talk_history_alternates (s : Store) (user_id : String)
    (calls : List TalkCall)
    (hempty : get_message_history s user_id = []) :
    get_message_history (runTalks s user_id calls) user_id = turnsOf user_id calls ∧
    (get_message_history (runTalks s user_id calls) user_id).length = 2 * calls.length ∧
    alternatingFrom true (get_message_history (runTalks s user_id calls) user_id) = true := by
  have he : get_message_history (runTalks s user_id calls) user_id
      = turnsOf user_id calls := by
    rw [runTalks_get, hempty, List.nil_append]
  exact ⟨he, by rw [he, length_turnsOf], by rw [he]; exact alternatingFrom_turnsOf user_id calls⟩

/-- Witness for C1: one `talk` call on the empty store. -/
theorem talk_history_alternates_witness :
    get_message_history emptyStore "u1" = [] ∧
    (get_message_history (runTalks emptyStore "u1" [simpleCall]) "u1"
        = turnsOf "u1" [simpleCall] ∧
     (get_message_history (runTalks emptyStore "u1" [simpleCall]) "u1").length
        = 2 * [simpleCall].length ∧
     alternatingFrom true
        (get_message_history (runTalks emptyStore "u1" [simpleCall]) "u1") = true) :=
  ⟨rfl, talk_history_alternates emptyStore "u1" [simpleCall] rfl⟩

-- C10

/-- C10: when the text matches a recognized command pattern, the
locally computed reply is non-empty, so the gateway is never invoked
(no payload is submitted upstream), the reply is the command reply, and
the call still appends exactly the USER turn with the original text and
an ASSISTANT turn carrying that reply. -/
theorem command_intercepts_gateway (s : Store) (user_id text : String)
    (caps : Capabilities) (apiKey : Option String) (net : UpstreamOutcome)
    (t1 t2 tu : Nat) (r : String)
    (hcmd : process_special_commands text user_id caps = some r) :
    r ≠ "" ∧
    (talk s user_id text caps apiKey net t1 t2 tu).gatewayCalled = false ∧
    (talk s user_id text caps apiKey net t1 t2 tu).submitted = none ∧
    (talk s user_id text caps apiKey net t1 t2 tu).reply = r ∧
    get_message_history (talk s user_id text caps apiKey net t1 t2 tu).store user_id
      = get_message_history s user_id ++ [userTurn text t1, assistantTurn r t2] := by
  have hne : r ≠ "" := process_special_commands_ne_empty text user_id caps r hcmd
  have hc : ∀ h1 : List Msg,
      computeReply text user_id caps apiKey net h1 = (r, false, none) := by
    intro h1
    unfold computeReply
    rw [hcmd]
    simp [hne]
  refine ⟨hne, ?_, ?_, ?_, ?_⟩
  · unfold talk; dsimp only []; rw [hc]
  · unfold talk; dsimp only []; rw [hc]
  · unfold talk; dsimp only []; rw [hc]
  · unfold talk
    dsimp only []
    rw [hc, get_save_same, talkPhase1_working]
    simp

/-- Witness for C10: the `/time` command on a seen store. -/
theorem command_intercepts_gateway_witness :
    process_special_commands "/time" "u1" trivialCaps
        = some (get_current_time_info trivialCaps.timeInfo) ∧
    (get_current_time_info trivialCaps.timeInfo ≠ "" ∧
     (talk seenStore "u1" "/time" trivialCaps (some "k") (.ok "hi") 5 6 7).gatewayCalled = false ∧
     (talk seenStore "u1" "/time" trivialCaps (some "k") (.ok "hi") 5 6 7).submitted = none ∧
     (talk seenStore "u1" "/time" trivialCaps (some "k") (.ok "hi") 5 6 7).reply
        = get_current_time_info trivialCaps.timeInfo ∧
     get_message_history (talk seenStore "u1" "/time" trivialCaps (some "k") (.ok "hi") 5 6 7).store "u1"
        = get_message_history seenStore "u1"
          ++ [userTurn "/time" 5,
              assistantTurn (get_current_time_info trivialCaps.timeInfo) 6]) :=
  ⟨rfl, command_intercepts_gateway seenStore "u1" "/time" trivialCaps (some "k")
    (.ok "hi") 5 6 7 (get_current_time_info trivialCaps.timeInfo) rfl⟩

-- C5

set_option maxRecDepth 4000 in
/-- C5: with the gateway unconfigured (no key, empty key, or the
placeholder key) and no command intercept, `talk` returns the fixed
non-empty simulation reply — a deterministic constant — and still
appends both the USER turn and an ASSISTANT turn carrying it. -/
theorem talk_unconfigured_placeholder (s : Store) (user_id text : String)
    (caps : Capabilities) (apiKey : Option String) (net : UpstreamOutcome)
    (t1 t2 tu : Nat)
    (hconf : openrouterConfigured apiKey = false)
    (hcmd : process_special_commands text user_id caps = none) :
    (talk s user_id text caps apiKey net t1 t2 tu).reply = simulationReply ∧
    simulationReply ≠ "" ∧
    get_message_history (talk s user_id text caps apiKey net t1 t2 tu).store user_id
      = get_message_history s user_id
        ++ [userTurn text t1, assistantTurn simulationReply t2] := by
  have hc : ∀ h1 : List Msg,
      computeReply text user_id caps apiKey net h1 = (simulationReply, true, none) := by
    intro h1
    unfold computeReply call_openrouter
    rw [hcmd]
    simp [hconf]
  refine ⟨?_, ?_, ?_⟩
  · unfold talk; dsimp only []; rw [hc]
  · intro h
    have := congrArg String.length h
    revert this
    decide
  · unfold talk
    dsimp only []
    rw [hc, get_save_same, talkPhase1_working]
    simp

/-- Witness for C5: a plain message with no API key configured. -/
theorem talk_unconfigured_placeholder_witness :
    openrouterConfigured none = false ∧
    process_special_commands "hi" "u1" trivialCaps = none ∧
    ((talk emptyStore "u1" "hi" trivialCaps none .exn 0 1 2).reply = simulationReply ∧
     simulationReply ≠ "" ∧
     get_message_history (talk emptyStore "u1" "hi" trivialCaps none .exn 0 1 2).store "u1"
        = get_message_history emptyStore "u1"
          ++ [userTurn "hi" 0, assistantTurn simulationReply 1]) :=
  ⟨rfl, by decide,
    talk_unconfigured_placeholder emptyStore "u1" "hi" trivialCaps none .exn 0 1 2
      rfl (by decide)⟩

-- C2

/-- C2 fails on the code: `talk` appends the user message to `history`
before calling `call_openrouter`, which appends the message again after
the history window, so the submitted payload carries the new message
twice — once inside the window and once as the final entry.  Concrete
run: empty history, text `"hello"`, configured gateway. -/
theorem talk_submitted_duplicate :
    (talk emptyStore "u1" "hello" trivialCaps (some "k") (.ok "hi") 0 1 2).submitted
      = some [systemEntry, { role := "user", content := "hello" },
              { role := "user", content := "hello" }] ∧
    ¬ (((talk emptyStore "u1" "hello" trivialCaps (some "k") (.ok "hi") 0 1 2).submitted.getD []).count
        { role := "user", content := "hello" } = 1) := by
  constructor
  · rfl
  · decide

/-- C2 amended: whenever the gateway is reached, the submitted payload
is built from the post-append history, so it ends with two copies of
the new USER entry — the last window turn and the appended final turn. -/
theorem talk_submitted_context (s : Store) (user_id text : String)
    (caps : Capabilities) (apiKey : Option String) (net : UpstreamOutcome)
    (t1 t2 tu : Nat)
    (hconf : openrouterConfigured apiKey = true)
    (hcmd : process_special_commands text user_id caps = none) :
    ∃ mid : List ChatEntry,
      (talk s user_id text caps apiKey net t1 t2 tu).submitted
        = some (systemEntry :: mid
            ++ [{ role := "user", content := text },
                { role := "user", content := text }]) := by
  have hsub : (talk s user_id text caps apiKey net t1 t2 tu).submitted
      = (call_openrouter apiKey text
          (get_message_history s user_id ++ [userTurn text t1]) net).1 := by
    unfold talk computeReply
    dsimp only []
    rw [hcmd, talkPhase1_working]
  have hfst : ∀ h1 : List Msg,
      (call_openrouter apiKey text h1 net).1 = some (contextMessages text h1) := by
    intro h1
    unfold call_openrouter
    simp [hconf]
  have hk : (get_message_history s user_id).length + 1 - 50
      ≤ (get_message_history s user_id).length := by omega
  have hdrop :
      ((get_message_history s user_id ++ [userTurn text t1]).drop
          ((get_message_history s user_id ++ [userTurn text t1]).length - 50))
        = (get_message_history s user_id).drop
            ((get_message_history s user_id).length + 1 - 50)
          ++ [userTurn text t1] := by
    rw [List.length_append, List.length_cons, List.length_nil]
    exact List.drop_append_of_le_length hk
  refine ⟨(((get_message_history s user_id).drop
      ((get_message_history s user_id).length + 1 - 50)).filter keepRole).map msgEntry, ?_⟩
  rw [hsub, hfst]
  unfold contextMessages
  rw [hdrop, List.filter_append, List.map_append]
  simp [keepRole, userTurn, msgEntry]

/-- Witness for C2 amended at a concrete input. -/
theorem talk_submitted_context_witness :
    openrouterConfigured (some "k") = true ∧
    process_special_commands "hello" "u1" trivialCaps = none ∧
    ∃ mid : List ChatEntry,
      (talk emptyStore "u1" "hello" trivialCaps (some "k") (.ok "hi") 0 1 2).submitted
        = some (systemEntry :: mid
            ++ [{ role := "user", content := "hello" },
                { role := "user", content := "hello" }]) :=
  ⟨by decide, by decide,
    talk_submitted_context emptyStore "u1" "hello" trivialCaps (some "k") (.ok "hi")
      0 1 2 (by decide) (by decide)⟩

-- C4

/-- C4 fails on the code: in the local backend `get_message_history`
returns the stored list itself, so for an already-seen user the append
of the user turn (src/main.py line 442) is immediately visible in the
store.  At the `await` points the stored history for `"u1"` has changed
and ends in a user turn with no assistant turn after it — a failure
there would leave exactly this state behind. -/
theorem talk_intermediate_dangling_user :
    get_message_history (talkPhase1 seenStore "u1" "hi" 5).1 "u1"
      = [userTurn "old" 0, assistantTurn "ok" 1, userTurn "hi" 5] ∧
    ¬ (get_message_history (talkPhase1 seenStore "u1" "hi" 5).1 "u1"
        = get_message_history seenStore "u1") ∧
    (get_message_history (talkPhase1 seenStore "u1" "hi" 5).1 "u1").getLast?.map Msg.role
      = some "user" := by
  refine ⟨rfl, by decide, rfl⟩

/-- C4 amended: `talk` persists exactly once, at the end, and a
completed call appends exactly the user/assistant pair; but for an
already-seen user the stored history passes through the intermediate
state `old ++ [user turn]` between the append and the save. -/
theorem talk_single_write_shape (s : Store) (user_id text : String)
    (caps : Capabilities) (apiKey : Option String) (net : UpstreamOutcome)
    (t1 t2 tu : Nat) (hseen : (s user_id).isSome = true) :
    get_message_history (talkPhase1 s user_id text t1).1 user_id
      = get_message_history s user_id ++ [userTurn text t1] ∧
    get_message_history (talk s user_id text caps apiKey net t1 t2 tu).store user_id
      = get_message_history s user_id
        ++ [userTurn text t1,
            assistantTurn (talk s user_id text caps apiKey net t1 t2 tu).reply t2] := by
  constructor
  · unfold talkPhase1
    dsimp only []
    cases hs : s user_id with
    | none => rw [hs] at hseen; simp at hseen
    | some r => rw [get_storeSet_same]
  · rw [get_talk, talk_reply]

/-- Witness for C4 amended at the seen store. -/
theorem talk_single_write_shape_witness :
    (seenStore "u1").isSome = true ∧
    (get_message_history (talkPhase1 seenStore "u1" "hi" 5).1 "u1"
        = get_message_history seenStore "u1" ++ [userTurn "hi" 5] ∧
     get_message_history (talk seenStore "u1" "hi" trivialCaps none .exn 5 6 7).store "u1"
        = get_message_history seenStore "u1"
          ++ [userTurn "hi" 5,
              assistantTurn (talk seenStore "u1" "hi" trivialCaps none .exn 5 6 7).reply 6]) :=
  ⟨rfl, talk_single_write_shape seenStore "u1" "hi" trivialCaps none .exn 5 6 7 rfl⟩

-- C6

/-- C6 fails on the code: `talk` takes no lock, so for a previously
unseen user the interleaving A1 B1 A2 B2 of two concurrent calls (both
segments of each call in order, two distinct texts) makes both calls
load an empty history and the second save overwrite the first: the
final history holds only call B's turns — call A's user turn is lost. -/
theorem concurrent_talk_lost_update :
    get_message_history
        (runSched "u1" ⟨"a", "ra"⟩ ⟨"b", "rb"⟩ [true, false, true, false]
          (initConcState emptyStore)).store "u1"
      = [userTurn "b" 0, assistantTurn "rb" 0] ∧
    hasTurn
        (get_message_history
          (runSched "u1" ⟨"a", "ra"⟩ ⟨"b", "rb"⟩ [true, false, true, false]
            (initConcState emptyStore)).store "u1") "user" "a" = false ∧
    [true, false, true, false].count true = 2 ∧
    [true, false, true, false].count false = 2 := by
  refine ⟨rfl, by decide, by decide, by decide⟩

/-- C6 amended: nothing serializes the load-append-replace sequence;
serialized (non-interleaved) schedules keep all turns of both calls, but
the interleaved schedule loses the first call's turns entirely. -/
theorem concurrent_talk_schedules :
    get_message_history
        (runSched "u1" ⟨"a", "ra"⟩ ⟨"b", "rb"⟩ [true, true, false, false]
          (initConcState emptyStore)).store "u1"
      = [userTurn "a" 0, assistantTurn "ra" 0, userTurn "b" 0, assistantTurn "rb" 0] ∧
    get_message_history
        (runSched "u1" ⟨"a", "ra"⟩ ⟨"b", "rb"⟩ [true, false, true, false]
          (initConcState emptyStore)).store "u1"
      = [userTurn "b" 0, assistantTurn "rb" 0] :=
  ⟨rfl, rfl⟩

-- C9

/-- C9 fails on the code: a `POST /talk` body missing a required field
is rejected by FastAPI model validation with HTTP 422 (the framework
default, no custom handler in src/main.py), not 400. -/
theorem missing_field_not_400 :
    talkEndpointStatus none (some "u1") true = 422 ∧
    ¬ talkEndpointStatus none (some "u1") true = 400 :=
  ⟨rfl, by decide⟩

/-- C9 amended: a body missing `text` or `user_id` (or both) yields
422; a well-formed body whose handler hits an unhandled internal
failure yields 500; a well-formed successful request yields 200. -/
theorem talk_status_codes (t u : String) (ok : Bool) :
    talkEndpointStatus none (some u) ok = 422 ∧
    talkEndpointStatus (some t) none ok = 422 ∧
    talkEndpointStatus none none ok = 422 ∧
    talkEndpointStatus (some t) (some u) false = 500 ∧
    talkEndpointStatus (some t) (some u) true = 200 :=
  ⟨rfl, rfl, rfl, rfl, rfl⟩
